import Mathlib

/-!
# Verification of the SourceWrangler manifest storage layer

A shallow embedding of `src/sourcewrangler/manifest.py` and
`src/sourcewrangler/sourcefolder.py` (a Python 2 codebase), together with
theorems settling the specified properties of the Record Store, the
Persistent Catalog (`ManifestFile`), and the Source Folder / staging areas.

Conventions of the embedding:
* JSON documents are strings; `jsonLoad` models `json.load` (recursive
  descent over the JSON grammar with integer numerals, which covers every
  document the code and its tests handle) and `dumpJV` models `json.dump`
  with its default separators.
* Python exceptions are the constructors of `PyErr`; fallible operations
  return `Except PyErr`.
* The filesystem is an association list from absolute path to entry.
* Machine-level details (encodings, fds) are irrelevant to the claims and
  are not modelled.
-/

namespace SourceWrangler

/-- Python exceptions raised by the code under `src/`.
`valueError` covers `json.load`'s failure on malformed input, the missing-file
check in `ManifestFile.__init__`, and the closed-handle check;
`indexError` is the out-of-range failure of the Record Store;
`keyError` is `SourceFolder.get`'s not-found failure;
`fileLockError` is `manifest.FileLockError`;
`osError` covers `os.error` / `OSError` / `IOError`;
`nameError` is Python's unbound-name failure at run time;
`unsupportedOp` is `io.UnsupportedOperation` (write on a read-mode handle). -/
inductive PyErr where
  | valueError
  | indexError
  | keyError
  | fileLockError
  | osError
  | nameError
  | unsupportedOp
deriving Repr, DecidableEq

/-- JSON values as produced by `json.load`. -/
inductive JValue where
  | null
  | bool (b : Bool)
  | num (n : Int)
  | str (s : String)
  | arr (xs : List JValue)
  | obj (kvs : List (String × JValue))
deriving Repr

mutual

def JValue.beq : JValue → JValue → Bool
  | .null, .null => true
  | .bool a, .bool b => a == b
  | .num a, .num b => a == b
  | .str a, .str b => a == b
  | .arr xs, .arr ys => JValue.beqList xs ys
  | .obj xs, .obj ys => JValue.beqObj xs ys
  | _, _ => false

def JValue.beqList : List JValue → List JValue → Bool
  | [], [] => true
  | x :: xs, y :: ys => JValue.beq x y && JValue.beqList xs ys
  | _, _ => false

def JValue.beqObj : List (String × JValue) → List (String × JValue) → Bool
  | [], [] => true
  | (k, v) :: xs, (l, w) :: ys => k == l && JValue.beq v w && JValue.beqObj xs ys
  | _, _ => false

end

instance : BEq JValue := ⟨JValue.beq⟩

/-! ## A model of `json.load` -/

/-- Skip JSON whitespace. -/
def skipWs : List Char → List Char
  | c :: cs => if c = ' ' ∨ c = '\n' ∨ c = '\t' ∨ c = '\r' then skipWs cs else c :: cs
  | [] => []

/-- Consume an expected literal spelled as a character list. -/
def dropLit : List Char → List Char → Option (List Char)
  | [], cs => some cs
  | p :: ps, c :: cs => if c = p then dropLit ps cs else none
  | _ :: _, [] => none

/-- Split a leading run of decimal digits off the input. -/
def takeDigits : List Char → List Char × List Char
  | c :: cs =>
    if c.isDigit then
      let (ds, rest) := takeDigits cs
      (c :: ds, rest)
    else ([], c :: cs)
  | [] => ([], [])

theorem takeDigits_sublen (cs : List Char) : (takeDigits cs).2.length ≤ cs.length := by
  induction cs with
  | nil => simp [takeDigits]
  | cons c cs ih =>
    by_cases h : c.isDigit
    · simp only [takeDigits, h, if_pos]
      simp only [List.length_cons]
      omega
    · simp [takeDigits, h]

/-- Decimal value of a digit run. -/
def digitsToNat : List Char → Nat → Nat
  | [], acc => acc
  | c :: cs, acc => digitsToNat cs (acc * 10 + (c.toNat - '0'.toNat))

/-- Parse the body of a JSON string after the opening quote, handling the
escape sequences the code's documents may contain; returns the decoded
characters and the input after the closing quote. -/
def parseStrBody : List Char → Option (List Char × List Char)
  | [] => none
  | c :: cs =>
    if c = '"' then some ([], cs)
    else if c = '\\' then
      match cs with
      | [] => none
      | e :: cs2 =>
        let d : Char :=
          if e = 'n' then '\n' else if e = 't' then '\t'
          else if e = 'r' then '\r' else e
        match parseStrBody cs2 with
        | some (s, rest) => some (d :: s, rest)
        | none => none
    else
      match parseStrBody cs with
      | some (s, rest) => some (c :: s, rest)
      | none => none

mutual

/-- Fuel-indexed JSON value parser. -/
def parseVal : Nat → List Char → Option (JValue × List Char)
  | 0, _ => none
  | fuel + 1, input =>
    match skipWs input with
    | [] => none
    | c :: rest =>
      if c = 'n' then
        (dropLit ['u', 'l', 'l'] rest).map (fun r => (JValue.null, r))
      else if c = 't' then
        (dropLit ['r', 'u', 'e'] rest).map (fun r => (JValue.bool true, r))
      else if c = 'f' then
        (dropLit ['a', 'l', 's', 'e'] rest).map (fun r => (JValue.bool false, r))
      else if c = '"' then
        match parseStrBody rest with
        | some (s, r) => some (JValue.str (String.mk s), r)
        | none => none
      else if c = '[' then
        parseArrItems fuel rest
      else if c = '\x7b' then
        parseObjItems fuel rest
      else if c = '-' then
        match takeDigits rest with
        | ([], _) => none
        | (ds, r) => some (JValue.num (-(digitsToNat ds 0 : Int)), r)
      else if c.isDigit then
        match takeDigits (c :: rest) with
        | ([], _) => none
        | (ds, r) => some (JValue.num (digitsToNat ds 0 : Int), r)
      else none

/-- Parse the items of a JSON array after the opening bracket. -/
def parseArrItems : Nat → List Char → Option (JValue × List Char)
  | 0, _ => none
  | fuel + 1, input =>
    match skipWs input with
    | ']' :: rest => some (JValue.arr [], rest)
    | other =>
      match parseVal fuel other with
      | none => none
      | some (v, rest) =>
        match parseArrTail fuel rest with
        | some (vs, r) => some (JValue.arr (v :: vs), r)
        | none => none

/-- Parse `, item`* `]` after one array item. -/
def parseArrTail : Nat → List Char → Option (List JValue × List Char)
  | 0, _ => none
  | fuel + 1, input =>
    match skipWs input with
    | ']' :: rest => some ([], rest)
    | ',' :: rest =>
      match parseVal fuel rest with
      | none => none
      | some (v, rest2) =>
        match parseArrTail fuel rest2 with
        | some (vs, r) => some (v :: vs, r)
        | none => none
    | _ => none

/-- Parse the members of a JSON object after the opening brace. -/
def parseObjItems : Nat → List Char → Option (JValue × List Char)
  | 0, _ => none
  | fuel + 1, input =>
    match skipWs input with
    | '\x7d' :: rest => some (JValue.obj [], rest)
    | other =>
      match parseMember fuel other with
      | none => none
      | some (kv, rest) =>
        match parseObjTail fuel rest with
        | some (kvs, r) => some (JValue.obj (kv :: kvs), r)
        | none => none

/-- Parse `, member`* `}` after one object member. -/
def parseObjTail : Nat → List Char → Option (List (String × JValue) × List Char)
  | 0, _ => none
  | fuel + 1, input =>
    match skipWs input with
    | '\x7d' :: rest => some ([], rest)
    | ',' :: rest =>
      match parseMember fuel rest with
      | none => none
      | some (kv, rest2) =>
        match parseObjTail fuel rest2 with
        | some (kvs, r) => some (kv :: kvs, r)
        | none => none
    | _ => none

/-- Parse one `"key": value` member. -/
def parseMember : Nat → List Char → Option ((String × JValue) × List Char)
  | 0, _ => none
  | fuel + 1, input =>
    match skipWs input with
    | '"' :: rest =>
      match parseStrBody rest with
      | none => none
      | some (k, rest2) =>
        match skipWs rest2 with
        | ':' :: rest3 =>
          match parseVal fuel rest3 with
          | some (v, r) => some ((String.mk k, v), r)
          | none => none
        | _ => none
    | _ => none

end

/-- Model of `json.load`: parse one JSON value and require only trailing
whitespace after it; `none` corresponds to the `ValueError` that
`json.load` raises on malformed input. -/
def jsonLoad (source : String) : Option JValue :=
  match parseVal (source.length + 1) source.data with
  | some (v, rest) => if skipWs rest = [] then some v else none
  | none => none

example : jsonLoad "[]" = some (JValue.arr []) := by rfl

example : jsonLoad "[1, 2]" = some (JValue.arr [JValue.num 1, JValue.num 2]) := by rfl

example : jsonLoad "[\x7b\x7d]" = some (JValue.arr [JValue.obj []]) := by rfl

example : jsonLoad "[\x7b\"a\": 1\x7d]"
    = some (JValue.arr [JValue.obj [("a", JValue.num 1)]]) := by rfl

example : jsonLoad "nonsense" = none := by rfl

example : jsonLoad "[1," = none := by rfl

/-! ## A model of `json.dump` (default separators) -/

/-- Escape one character the way `json.dump` does for the characters the
code's documents contain. -/
def escChar (c : Char) : String :=
  if c = '"' then "\\\"" else if c = '\\' then "\\\\" else String.mk [c]

/-- Serialize a JSON string with quotes and escapes. -/
def dumpStr (s : String) : String :=
  "\"" ++ String.join (s.data.map escChar) ++ "\""

mutual

/-- Model of `json.dump` with its default separators `", "` and `": "`. -/
def dumpJV : JValue → String
  | .null => "null"
  | .bool true => "true"
  | .bool false => "false"
  | .num n => toString n
  | .str s => dumpStr s
  | .arr xs => "[" ++ dumpItems xs ++ "]"
  | .obj kvs => "\x7b" ++ dumpMembers kvs ++ "\x7d"

/-- Comma-separated array items. -/
def dumpItems : List JValue → String
  | [] => ""
  | [x] => dumpJV x
  | x :: xs => dumpJV x ++ ", " ++ dumpItems xs

/-- Comma-separated `"key": value` members. -/
def dumpMembers : List (String × JValue) → String
  | [] => ""
  | [(k, v)] => dumpStr k ++ ": " ++ dumpJV v
  | (k, v) :: kvs => dumpStr k ++ ": " ++ dumpJV v ++ ", " ++ dumpMembers kvs

end

example : dumpJV (JValue.arr [JValue.obj [("a", JValue.num 1)]])
    = "[\x7b\"a\": 1\x7d]" := by rfl

/-! ## Record Store (`Manifest` in `manifest.py`) -/

/-- `Manifest.__init__` and `Manifest.revert`: `self._manifest = json.load(fp)`.
The only failure is `json.load`'s `ValueError` on malformed input; the loaded
value is stored as-is, with no check that it is an array of objects. -/
def manifestInit (source : String) : Except PyErr JValue :=
  match jsonLoad source with
  | some v => Except.ok v
  | none => Except.error PyErr.valueError

/-- The document shape the spec's words require of a manifest: a JSON array
whose elements are all objects. (Stated from the spec, for comparison with
`manifestInit`, which performs no such check.) -/
def isArrayOfObjects : JValue → Bool
  | .arr xs => xs.all (fun x => match x with | .obj _ => true | _ => false)
  | _ => false

/-- Python list indexing `xs[key]`, as `Manifest.get` uses it: negative keys
count from the end of the list; keys outside `[-len, len)` raise
`IndexError`. -/
def pyListIndex (m : List JValue) (key : Int) : Except PyErr JValue :=
  let j : Int := if key < 0 then key + m.length else key
  if h : 0 ≤ j ∧ j < (m.length : Int) then
    Except.ok (m.get ⟨j.toNat, by omega⟩)
  else Except.error PyErr.indexError

namespace Manifest

/-- `Manifest.get`: `return self._manifest[key]` — plain Python list
indexing, with no explicit bounds check of its own. -/
def get (m : List JValue) (key : Int) : Except PyErr JValue :=
  pyListIndex m key

/-- `Manifest.add`: appends the source and returns the index it was given
(the store's length before the append). -/
def add (m : List JValue) (source : JValue) : List JValue × Nat :=
  (m ++ [source], m.length)

/-- `Manifest.replace`: raises `IndexError` when
`key >= len(self._manifest) or key < 0`, otherwise assigns in place. -/
def replace (m : List JValue) (key : Int) (source : JValue) :
    Except PyErr (List JValue) :=
  if key ≥ (m.length : Int) ∨ key < 0 then Except.error PyErr.indexError
  else Except.ok (m.set key.toNat source)

/-- `Manifest.commit`: `json.dump(self._manifest, fp)` — the document text an
array store serializes to. -/
def commitDoc (m : List JValue) : String :=
  dumpJV (JValue.arr m)

end Manifest

/-! ## Filesystem model for the Persistent Catalog (`ManifestFile`) -/

/-- A flat filesystem: absolute path ↦ file content. Directories play no
role in `manifest.py`. -/
structure FS where
  files : List (String × String)
deriving Repr, DecidableEq

/-- Content of the file at `p`, if one exists. -/
def FS.read (fs : FS) (p : String) : Option String :=
  fs.files.lookup p

/-- `os.path.isfile`. -/
def FS.isFile (fs : FS) (p : String) : Bool :=
  (fs.read p).isSome

/-- Create or overwrite the file at `p`. -/
def FS.writeFile (fs : FS) (p : String) (c : String) : FS :=
  ⟨(p, c) :: fs.files.filter (fun e => e.1 != p)⟩

/-- `os.remove`. -/
def FS.removeFile (fs : FS) (p : String) : FS :=
  ⟨fs.files.filter (fun e => e.1 != p)⟩

/-- The mutable state of a `ManifestFile` handle. `mf = none` models
`self._mf = None` (the closed marker). The claims' scenarios all govern
JSON array documents, so the loaded store is represented by its list of
elements. -/
structure MFHandle where
  fname : String
  autocommit : Bool
  lock : Bool
  mf : Option (List JValue)
deriving Repr

/-- Python truthiness of `self._mf` as the guards `if not self._mf` use it:
`None` is falsy, and a `Manifest` object is falsy exactly when
`Manifest.__len__` returns 0 — so these guards also fire on an *open*
handle whose store is empty. -/
def mfFalsy : Option (List JValue) → Bool
  | none => true
  | some xs => xs.isEmpty

/-- `ManifestFile.__init__`. Raises `ValueError` if the manifest file does
not exist; with `lock=True`, creates the sentinel `fname + ".lock"` by
`os.open(..., O_CREAT | O_EXCL | O_RDONLY)` — if the sentinel already
exists the `OSError` is turned into `FileLockError`; finally loads the
document into a fresh `Manifest`. A document that fails to parse raises
`json.load`'s `ValueError`; a well-formed non-array document is outside
this model's handle type (see `manifestInit` for the unrestricted load —
every scenario below uses array documents). -/
def manifestFileInit (fs : FS) (fname : String) (autocommit lock : Bool) :
    Except PyErr (FS × MFHandle) :=
  if ¬ fs.isFile fname then Except.error PyErr.valueError
  else
    let sentinel := fname ++ ".lock"
    if lock ∧ fs.isFile sentinel then Except.error PyErr.fileLockError
    else
      let fs2 := if lock then fs.writeFile sentinel "" else fs
      match fs2.read fname with
      | none => Except.error PyErr.valueError
      | some content =>
        match jsonLoad content with
        | some (JValue.arr xs) =>
            Except.ok (fs2, ⟨fname, autocommit, lock, some xs⟩)
        | some _ => Except.error PyErr.valueError
        | none => Except.error PyErr.valueError

/-- `ManifestFile.close`. The lock branch of the source reads
`os.remove(fname + ".lock")`, but no name `fname` is bound in that scope
(the attribute is `self._fname`), so for a handle opened with `lock=True`
the call raises `NameError` — before the sentinel is removed and before
the line `self._mf = None` is reached, leaving the handle open and the
sentinel in place. With `lock=False` it marks the handle closed. -/
def manifestFileClose (fs : FS) (h : MFHandle) :
    Except PyErr (FS × MFHandle) :=
  if h.lock then Except.error PyErr.nameError
  else Except.ok (fs, { h with mf := none })

/-- `ManifestFile.__getattr__` dispatch for `add`. The guard
`if not self._mf` raises `ValueError` when the handle is closed (or, via
`Manifest.__len__`, when the open store is empty). With autocommit on, the
dispatched value is `lambda *args, **kwargs: getattr(self._mf,
attr)(*args, **kwargs)`; the `self.commit()` written after it on the same
line stands after the `return` statement and never executes, so the
backing file is not written. -/
def mfileAdd (fs : FS) (h : MFHandle) (source : JValue) :
    Except PyErr (FS × MFHandle × Nat) :=
  if mfFalsy h.mf then Except.error PyErr.valueError
  else
    match h.mf with
    | some xs =>
      let p := Manifest.add xs source
      Except.ok (fs, { h with mf := some p.1 }, p.2)
    | none => Except.error PyErr.valueError

/-- `ManifestFile.__getattr__` dispatch for `get`: closed-handle guard, then
a plain delegation to `Manifest.get` — no filesystem access. -/
def mfileGet (h : MFHandle) (key : Int) : Except PyErr JValue :=
  if mfFalsy h.mf then Except.error PyErr.valueError
  else
    match h.mf with
    | some xs => Manifest.get xs key
    | none => Except.error PyErr.valueError

/-- `ManifestFile.commit`: guard `if not self._mf` (`ValueError`), then open
`self._fname` with mode `"w"` and `json.dump` the store into it. -/
def mfileCommit (fs : FS) (h : MFHandle) : Except PyErr FS :=
  if mfFalsy h.mf then Except.error PyErr.valueError
  else
    match h.mf with
    | some xs => Except.ok (fs.writeFile h.fname (Manifest.commitDoc xs))
    | none => Except.error PyErr.valueError

/-! ## The commit write pattern, as a step trace

For the atomic-visibility claim, `ManifestFile.commit`'s filesystem effect
is broken into the steps a concurrent reader of the raw file can observe. -/

/-- One observable filesystem step. -/
inductive FsOp where
  | truncate (path : String)
  | writeAll (path : String) (content : String)
  | renameOp (src dst : String)
deriving Repr, DecidableEq

/-- `ManifestFile.commit`'s effect as a step trace:
`codecs.open(self._fname, "w", ...)` truncates the backing file in place,
then `json.dump` writes the full document — both steps act directly on the
backing path; no side file is created and no rename is performed. -/
def commitOps (fname : String) (m : List JValue) : List FsOp :=
  [FsOp.truncate fname, FsOp.writeAll fname (Manifest.commitDoc m)]

/-- Effect of one step on the filesystem. -/
def FsOp.apply (fs : FS) : FsOp → FS
  | .truncate p => fs.writeFile p ""
  | .writeAll p c => fs.writeFile p c
  | .renameOp src dst =>
      match fs.read src with
      | some c => (fs.writeFile dst c).removeFile src
      | none => fs

/-- The content a reader of `p` observes once the first `k` steps of `ops`
have executed. -/
def visibleAfter (fs : FS) (ops : List FsOp) (k : Nat) (p : String) :
    Option String :=
  ((ops.take k).foldl FsOp.apply fs).read p

/-- Whether a step is a rename. -/
def FsOp.isRename : FsOp → Bool
  | .renameOp _ _ => true
  | _ => false

/-- Whether a step acts only on path `p`. -/
def FsOp.onlyOn (op : FsOp) (p : String) : Bool :=
  match op with
  | .truncate q => q == p
  | .writeAll q _ => q == p
  | .renameOp src dst => src == p && dst == p

/-! ## Source Folder model (`sourcefolder.py`)

This module of the repository cannot actually be imported: the line
`return new TemporaryFile(...)` in `TemporaryFolder.allocate` is a syntax
error, and the methods `SourceFolder.open`, `SourceFolder.available`,
`SourceFolder.open_manifest`, `ReceivingBay.open`, `ReceivingBay.available`,
`TemporaryFolder.open` and `TemporaryFolder.allocate` all reference the
unbound name `_fname` (the attribute is `self._fname`). The embedding below
is faithful to those facts where a claim depends on them, and embeds the
per-function logic that is reachable. -/

/-- A filesystem entry: a directory or a regular file with content. -/
inductive Entry where
  | dir
  | file (content : String)
deriving Repr, DecidableEq

/-- A filesystem with directories: absolute path ↦ entry. Paths are joined
with `/` as `os.path.join` does on POSIX. -/
structure DFS where
  entries : List (String × Entry)
deriving Repr, DecidableEq

/-- The entry at `p`, if any. -/
def DFS.lookup (fs : DFS) (p : String) : Option Entry :=
  fs.entries.lookup p

/-- `os.path.lexists`. -/
def DFS.lexists (fs : DFS) (p : String) : Bool :=
  (fs.lookup p).isSome

/-- `os.path.isdir`. -/
def DFS.isdir (fs : DFS) (p : String) : Bool :=
  fs.lookup p == some Entry.dir

/-- `os.path.isfile`. -/
def DFS.isfile (fs : DFS) (p : String) : Bool :=
  match fs.lookup p with
  | some (Entry.file _) => true
  | _ => false

/-- Create a directory at a path that does not exist yet. -/
def DFS.mkdir (fs : DFS) (p : String) : DFS :=
  ⟨(p, Entry.dir) :: fs.entries⟩

/-- Create or replace the regular file at `p`. -/
def DFS.setFile (fs : DFS) (p : String) (c : String) : DFS :=
  ⟨(p, Entry.file c) :: fs.entries.filter (fun e => e.1 != p)⟩

/-- `s.startswith(pre)` on character lists (structural, so proofs can
evaluate it). -/
def listStarts : List Char → List Char → Bool
  | _, [] => true
  | [], _ :: _ => false
  | c :: cs, p :: ps => c == p && listStarts cs ps

/-- Python `str.startswith`. -/
def strStarts (s pre : String) : Bool :=
  listStarts s.data pre.data

/-- `os.listdir`: names of the immediate children of directory `p`. -/
def DFS.listdir (fs : DFS) (p : String) : List String :=
  fs.entries.filterMap (fun e =>
    if listStarts e.1.data (p.data ++ ['/']) then
      let name := e.1.data.drop (p.data.length + 1)
      if name.contains '/' ∨ name = [] then none else some (String.mk name)
    else none)

/-- `SourceFolder.check`: pure predicate — `root` is a directory containing
an `rbay` directory, a `.tmp` directory and a `manifest.json` file. -/
def SourceFolder.check (fs : DFS) (root : String) : Bool :=
  fs.isdir root && fs.isdir (root ++ "/rbay") && fs.isdir (root ++ "/.tmp")
    && fs.isfile (root ++ "/manifest.json")

/-- `SourceFolder._ensure_directory_exists`: an existing path must already
be a directory (else `os.error`); a missing one is created by
`os.makedirs`. -/
def ensureDirExists (fs : DFS) (p : String) : Except PyErr DFS :=
  if fs.lexists p then
    if fs.isdir p then Except.ok fs else Except.error PyErr.osError
  else Except.ok (fs.mkdir p)

/-- `SourceFolder._ensure_file_exists`: an existing path must be a regular
file (else `os.error`). For a missing path the source runs
`os.makedirs(os.path.join(absfname, ".."))` — which, the parent directory
existing already, first creates a *directory* at `absfname` itself and then
fails with `EEXIST` making the final `mkdir` of the `..` component — and
even past that, its `with open(absfname): pass` uses the default mode
`"r"`, which cannot create a file; either way this branch raises an
`os.error`/`IOError` and never produces the promised file. -/
def ensureFileExists (fs : DFS) (p : String) : Except PyErr DFS :=
  if fs.lexists p then
    if fs.isfile p then Except.ok fs else Except.error PyErr.osError
  else Except.error PyErr.osError

/-- Python file-open modes used by `sourcefolder.py`. -/
inductive PyMode where
  | read
  | write
deriving Repr, DecidableEq

/-- An open Python file handle. -/
structure PyHandle where
  path : String
  mode : PyMode
deriving Repr, DecidableEq

/-- Python `open(path)` with the default mode `"r"`: fails with `IOError`
unless a regular file exists at `path`. -/
def pyOpenRead (fs : DFS) (p : String) : Except PyErr PyHandle :=
  if fs.isfile p then Except.ok ⟨p, PyMode.read⟩
  else Except.error PyErr.osError

/-- `.write(...)` on an open handle: a handle opened in read mode raises
`io.UnsupportedOperation`. -/
def pyHandleWrite (fs : DFS) (h : PyHandle) (c : String) : Except PyErr DFS :=
  match h.mode with
  | PyMode.read => Except.error PyErr.unsupportedOp
  | PyMode.write => Except.ok (fs.setFile h.path c)

/-- `SourceFolder.spawn`: ensures the root, `rbay`, `.tmp` and
`manifest.json` members exist, then runs
`with open(<manifest path>) as mf_json: mf_json.write("[]")` — the handle
is opened with the default read mode, so the write raises
`io.UnsupportedOperation` before `cls(fname)` is reached (and the write it
attempts is unconditional: had the handle been writable, every call would
overwrite an existing manifest with `[]`). -/
def SourceFolder.spawn (fs : DFS) (root : String) : Except PyErr DFS := do
  let fs1 ← ensureDirExists fs root
  let fs2 ← ensureDirExists fs1 (root ++ "/rbay")
  let fs3 ← ensureDirExists fs2 (root ++ "/.tmp")
  let fs4 ← ensureFileExists fs3 (root ++ "/manifest.json")
  let h ← pyOpenRead fs4 (root ++ "/manifest.json")
  pyHandleWrite fs4 h "[]"

/-- `SourceFolder.get`: computes `str(key)` and raises `KeyError` when it is
empty; the loop then iterates `self.available()`, whose body
`os.listdir(_fname)` references the unbound name `_fname` and raises
`NameError`, so every non-empty key fails with `NameError` instead of
resolving to a filename. (Under the evident intended reading
`self._fname`, the listing would moreover be of the folder *root*, not of
the receiving bay — contrast `ReceivingBay.available`.) -/
def SourceFolder.get (key : String) : Except PyErr String :=
  if key = "" then Except.error PyErr.keyError
  else Except.error PyErr.nameError

/-- The candidate loop of `SourceFolder.get`, as a pure function of the
listing it would iterate: the first name that starts with the key, else
`KeyError`. -/
def findByKey (listing : List String) (key : String) : Except PyErr String :=
  match listing with
  | [] => Except.error PyErr.keyError
  | c :: rest => if strStarts c key then Except.ok c else findByKey rest key

/-- `%03d` for the disambiguator range `0..999`. -/
def pad3 (n : Nat) : String :=
  if n < 10 then "00" ++ toString n
  else if n < 100 then "0" ++ toString n
  else toString n

/-- The name expression of `TemporaryFolder.allocate`:
`"%s-%03d%s" % (datecode, attempt, suffix)`. Note there is no separator
between the three-digit disambiguator and the caller's suffix. -/
def tmpName (datecode : String) (attempt : Nat) (suffix : String) : String :=
  datecode ++ "-" ++ pad3 attempt ++ suffix

/-- `TemporaryFolder.allocate`. The first expression evaluated inside the
probing loop is `os.path.join(_fname, ...)`, and `_fname` is an unbound
name (the attribute is `self._fname`); the resulting `NameError` is not
caught by the `except OSError` clause, so every call fails with
`NameError` and the create-exclusive probing and the exhaustion `OSError`
are unreachable. (Independently, the module cannot be imported at all:
its final `return new TemporaryFile(...)` is a syntax error.) -/
def TemporaryFolder.allocate (_datecode _suffix : String) :
    Except PyErr String :=
  Except.error PyErr.nameError

/-! ## Concrete fixtures -/

/-- The one-record document `[{}]`. -/
def doc1 : String := "[\x7b\x7d]"

/-- The one-record document `[\x7b"a": 1\x7d]`. -/
def docA : String := "[\x7b\"a\": 1\x7d]"

/-- A disk holding only the manifest `m.json` = `[{}]`. -/
def fsM : FS := ⟨[("m.json", doc1)]⟩

/-- A disk holding only the manifest `m.json` = `[{"a": 1}]`. -/
def fsA : FS := ⟨[("m.json", docA)]⟩

/-! ## Claim C1 — lock mutual exclusion -/

/-- **C1.** Claim: with `lock=true`, a second construction on the same path
fails with LockHeld while the sentinel exists, and after the first
handle's `close()` a subsequent open of the same path succeeds. The first
half holds: the sentinel is created create-exclusively and a second
`ManifestFile` on the same path fails with `FileLockError`. The second
half fails on the code: `close` executes `os.remove(fname + ".lock")`
where `fname` is an unbound name, so it raises `NameError`, the sentinel
is never removed, and a subsequent open with `lock=true` still fails with
`FileLockError`. -/
theorem c1_lock_sentinel_never_released :
    ∃ fs1 h1,
      manifestFileInit fsM "m.json" true true = Except.ok (fs1, h1) ∧
      manifestFileInit fs1 "m.json" true true
        = Except.error PyErr.fileLockError ∧
      manifestFileClose fs1 h1 = Except.error PyErr.nameError ∧
      manifestFileInit fs1 "m.json" true true
        = Except.error PyErr.fileLockError := by
  exact ⟨⟨[("m.json.lock", ""), ("m.json", doc1)]⟩,
    ⟨"m.json", true, true, some [JValue.obj []]⟩, rfl, rfl, rfl, rfl⟩

/-! ## Claim C2 — autocommit policy -/

/-- **C2.** Claim: with `autocommit=true`, every `add`/`replace` performs an
implicit commit strictly after the in-memory mutation. On the code,
`ManifestFile.__getattr__` returns
`lambda *args, **kwargs: getattr(self._mf, attr)(*args, **kwargs)` and the
`self.commit()` written after it sits after the `return` statement, so it
never runs: below, `add` on an autocommitting handle succeeds in memory
while the backing file still holds the old document (which differs from
what a commit of the new store would have written). -/
theorem c2_autocommit_never_commits :
    ∃ fs1 h1 fs2 h2 idx,
      manifestFileInit fsA "m.json" true false = Except.ok (fs1, h1) ∧
      h1.autocommit = true ∧
      mfileAdd fs1 h1 (JValue.obj [("b", JValue.num 2)])
        = Except.ok (fs2, h2, idx) ∧
      h2.mf = some [JValue.obj [("a", JValue.num 1)],
        JValue.obj [("b", JValue.num 2)]] ∧
      fs2.read "m.json" = some docA ∧
      some (Manifest.commitDoc [JValue.obj [("a", JValue.num 1)],
        JValue.obj [("b", JValue.num 2)]]) ≠ fs2.read "m.json" := by
  refine ⟨fsA, ⟨"m.json", true, false, some [JValue.obj [("a", JValue.num 1)]]⟩,
    fsA, ⟨"m.json", true, false, some [JValue.obj [("a", JValue.num 1)],
      JValue.obj [("b", JValue.num 2)]]⟩, 1, rfl, rfl, rfl, rfl, rfl, ?_⟩
  decide

/-! ## Claim C3 — close semantics -/

/-- **C3.** Claim: `close()` is idempotent, removes the sentinel this handle
created, and afterwards every operation fails with ClosedHandle. On the
code, a handle that created a sentinel (`lock=true`) cannot close at all:
`close` raises `NameError` (unbound `fname`), the sentinel remains on
disk, and the handle stays open — `get` still succeeds afterwards instead
of failing with the closed-handle `ValueError`. (With `lock=false` the
closed-marker path does work: close is idempotent and later `get`/`commit`
raise `ValueError`, as the second half below records.) -/
theorem c3_close_raises_and_handle_stays_open :
    ∃ fs1 h1,
      manifestFileInit fsM "m.json" true true = Except.ok (fs1, h1) ∧
      manifestFileClose fs1 h1 = Except.error PyErr.nameError ∧
      fs1.isFile "m.json.lock" = true ∧
      mfileGet h1 0 = Except.ok (JValue.obj []) ∧
      ∃ h2 fs3 h3,
        manifestFileInit fsM "m.json" true false = Except.ok (fsM, h2) ∧
        manifestFileClose fsM h2 = Except.ok (fs3, h3) ∧
        manifestFileClose fs3 h3 = Except.ok (fs3, h3) ∧
        mfileGet h3 0 = Except.error PyErr.valueError ∧
        mfileCommit fs3 h3 = Except.error PyErr.valueError := by
  exact ⟨⟨[("m.json.lock", ""), ("m.json", doc1)]⟩,
    ⟨"m.json", true, true, some [JValue.obj []]⟩, rfl, rfl, rfl, rfl,
    ⟨"m.json", true, false, some [JValue.obj []]⟩, fsM,
    ⟨"m.json", true, false, none⟩, rfl, rfl, rfl, rfl, rfl⟩

/-! ## Claim C4 — commit atomic visibility -/

theorem FS.read_writeFile_self (fs : FS) (p c : String) :
    (fs.writeFile p c).read p = some c := by
  simp [FS.read, FS.writeFile, List.lookup]

/-- A two-record store. -/
def store2 : List JValue :=
  [JValue.obj [("a", JValue.num 1)], JValue.obj [("b", JValue.num 6)]]

/-- **C4, counterexample.** The claim — commit never leaves a truncated or
partially-written manifest visible to any reader, achieved by writing the
document to a side file and atomically renaming it into place — is false
at this input: commit's step trace acts directly on the backing path and
contains no rename, and after its first step (the mode-"w" open) a reader
of `m.json` observes the empty document, which is neither the previous
manifest nor the new one. -/
theorem c4_counterexample :
    (commitOps "m.json" store2).all
      (fun op => op.onlyOn "m.json" && !op.isRename) = true ∧
    visibleAfter fsA (commitOps "m.json" store2) 1 "m.json" = some "" ∧
    some "" ≠ fsA.read "m.json" ∧
    some "" ≠ some (Manifest.commitDoc store2) := by
  exact ⟨rfl, rfl, by decide, by decide⟩

/-- **C4, amended.** `ManifestFile.commit` rewrites the backing file in
place: its step trace touches only the backing path and performs no
rename; after both steps the file holds the full serialized document, but
after the first step alone (the mode-"w" open, which truncates) a reader
of the backing file observes the empty document — a reader interleaved
with commit can therefore see a truncated manifest. -/
theorem c4_commit_rewrites_in_place (fname : String) (m : List JValue)
    (fs : FS) :
    (commitOps fname m).all
      (fun op => op.onlyOn fname && !op.isRename) = true ∧
    visibleAfter fs (commitOps fname m) 1 fname = some "" ∧
    visibleAfter fs (commitOps fname m) 2 fname
      = some (Manifest.commitDoc m) := by
  refine ⟨?_, ?_, ?_⟩
  · simp [commitOps, FsOp.onlyOn, FsOp.isRename]
  · simp [visibleAfter, commitOps, FsOp.apply, FS.read_writeFile_self]
  · simp [visibleAfter, commitOps, FsOp.apply, FS.read_writeFile_self]

/-! ## Claim C5 — load validation -/

/-- **C5, counterexample.** `[1, 2]` is well-formed JSON but not an array of
objects, yet `Manifest` construction accepts it and produces a store
instead of raising MalformedDocument. -/
theorem c5_counterexample :
    jsonLoad "[1, 2]" = some (JValue.arr [JValue.num 1, JValue.num 2]) ∧
    isArrayOfObjects (JValue.arr [JValue.num 1, JValue.num 2]) = false ∧
    manifestInit "[1, 2]" = Except.ok (JValue.arr [JValue.num 1, JValue.num 2]) :=
  ⟨rfl, rfl, rfl⟩

/-- **C5, amended.** Loading (`Manifest.__init__` / `revert`, and hence
`ManifestFile` construction) fails — with `json.load`'s `ValueError`, the
code's MalformedDocument — exactly when the document is not well-formed
JSON; every well-formed document, of any shape, is accepted and stored
as-is, with no array-of-objects validation. -/
theorem c5_load_checks_wellformedness_only (s : String) :
    (manifestInit s = Except.error PyErr.valueError ↔ jsonLoad s = none) ∧
    (∀ v, jsonLoad s = some v → manifestInit s = Except.ok v) := by
  unfold manifestInit
  cases h : jsonLoad s <;> simp [h]

/-- Witness for C5: the well-formed non-array document `{}` is accepted. -/
theorem c5_witness :
    jsonLoad "\x7b\x7d" = some (JValue.obj []) ∧
    manifestInit "\x7b\x7d" = Except.ok (JValue.obj []) :=
  ⟨rfl, (c5_load_checks_wellformedness_only "\x7b\x7d").2 (JValue.obj []) rfl⟩

/-! ## Claims C6 and C7 — Record Store bounds and the replace frame -/

theorem pyListIndex_nat (m : List JValue) (j : Nat) (hj : j < m.length) :
    pyListIndex m (j : Int) = Except.ok m[j] := by
  unfold pyListIndex
  have hneg : ¬ ((j : Int) < 0) := by omega
  simp only [hneg, if_false, ite_false]
  rw [dif_pos (by omega)]
  simp only [List.get_eq_getElem, Int.toNat_natCast]

theorem pyListIndex_isOk_iff (m : List JValue) (key : Int) :
    (pyListIndex m key).isOk = true ↔
      (-(m.length : Int) ≤ key ∧ key < (m.length : Int)) := by
  unfold pyListIndex
  by_cases hneg : key < 0
  · simp only [hneg, if_true, ite_true]
    split
    · rename_i h
      exact iff_of_true rfl (by omega)
    · rename_i h
      exact iff_of_false (by simp [Except.isOk, Except.toBool]) (by omega)
  · simp only [hneg, if_false, ite_false]
    split
    · rename_i h
      exact iff_of_true rfl (by omega)
    · rename_i h
      exact iff_of_false (by simp [Except.isOk, Except.toBool]) (by omega)

theorem pyListIndex_error_iff (m : List JValue) (key : Int) :
    pyListIndex m key = Except.error PyErr.indexError ↔
      ¬ (-(m.length : Int) ≤ key ∧ key < (m.length : Int)) := by
  unfold pyListIndex
  by_cases hneg : key < 0
  · simp only [hneg, if_true, ite_true]
    split
    · rename_i h
      exact iff_of_false (by simp) (by omega)
    · rename_i h
      exact iff_of_true rfl (by omega)
  · simp only [hneg, if_false, ite_false]
    split
    · rename_i h
      exact iff_of_false (by simp) (by omega)
    · rename_i h
      exact iff_of_true rfl (by omega)

/-- **C6, counterexample.** The claim says `get(id)` fails with OutOfRange
for every negative `id`; on a one-record store, `get(-1)` instead succeeds
and returns the record (Python list indexing counts negative ids from the
end). -/
theorem c6_counterexample :
    Manifest.get [JValue.obj []] (-1) = Except.ok (JValue.obj []) := rfl

/-- **C6, amended.** `replace(id, r)` fails with OutOfRange (IndexError)
exactly when `id < 0` or `id ≥ n`, as claimed; but `get(id)` follows
Python list indexing, succeeding exactly when `-n ≤ id < n` (negative ids
address records from the end) and failing with OutOfRange only outside
that range. For `0 ≤ id < n` both succeed. -/
theorem c6_bounds_checking (m : List JValue) (id : Int) (r : JValue) :
    ((Manifest.get m id).isOk = true ↔
      (-(m.length : Int) ≤ id ∧ id < (m.length : Int))) ∧
    (Manifest.get m id = Except.error PyErr.indexError ↔
      ¬ (-(m.length : Int) ≤ id ∧ id < (m.length : Int))) ∧
    ((Manifest.replace m id r).isOk = true ↔
      (0 ≤ id ∧ id < (m.length : Int))) ∧
    (Manifest.replace m id r = Except.error PyErr.indexError ↔
      ¬ (0 ≤ id ∧ id < (m.length : Int))) := by
  refine ⟨pyListIndex_isOk_iff m id, pyListIndex_error_iff m id, ?_, ?_⟩
  · unfold Manifest.replace
    split
    · rename_i h
      exact iff_of_false (by simp [Except.isOk, Except.toBool]) (by omega)
    · rename_i h
      exact iff_of_true rfl (by omega)
  · unfold Manifest.replace
    split
    · rename_i h
      exact iff_of_true rfl (by omega)
    · rename_i h
      exact iff_of_false (by simp) (by omega)

/-- **C7.** Replace postcondition and frame: for every store, every `id` in
range and every record `r`, `replace(id, r)` succeeds; afterwards
`get(id)` returns `r`, every other position holds the same record as
before, and the store's size is unchanged. -/
theorem c7_replace_frame (m : List JValue) (id : Int) (r : JValue)
    (h0 : 0 ≤ id) (h1 : id < (m.length : Int)) :
    ∃ m2, Manifest.replace m id r = Except.ok m2 ∧
      m2.length = m.length ∧
      Manifest.get m2 id = Except.ok r ∧
      ∀ j : Nat, j < m.length → (j : Int) ≠ id →
        Manifest.get m2 (j : Int) = Manifest.get m (j : Int) := by
  obtain ⟨k, rfl⟩ : ∃ n : Nat, id = (n : Int) := ⟨id.toNat, by omega⟩
  have hk : k < m.length := by omega
  have hlen : (m.set k r).length = m.length := List.length_set m _ r
  refine ⟨m.set k r, ?_, hlen, ?_, ?_⟩
  · unfold Manifest.replace
    rw [if_neg (by omega)]
    simp [Int.toNat_natCast]
  · unfold Manifest.get
    rw [pyListIndex_nat _ k (by rw [hlen]; omega)]
    congr 1
    exact List.getElem_set_self (by rw [hlen]; omega)
  · intro j hj hne
    unfold Manifest.get
    rw [pyListIndex_nat _ j (by rw [hlen]; omega), pyListIndex_nat m j hj]
    congr 1
    exact List.getElem_set_ne (by omega) (by rw [hlen]; omega)

/-- Witness for C7 at a concrete in-range input. -/
theorem c7_witness :
    ∃ m2, Manifest.replace store2 1 (JValue.num 9) = Except.ok m2 ∧
      m2.length = store2.length ∧
      Manifest.get m2 1 = Except.ok (JValue.num 9) ∧
      ∀ j : Nat, j < store2.length → (j : Int) ≠ 1 →
        Manifest.get m2 (j : Int) = Manifest.get store2 (j : Int) :=
  c7_replace_frame store2 1 (JValue.num 9) (by decide) (by decide)

/-! ## Claim C8 — temporary-file allocation -/

/-- **C8.** Claim: `allocate(suffix)` produces names of the form
`<timestamp>-<3-digit disambiguator>-<suffix>`, probing `000`…`999` in
order, claiming the first unused name create-exclusively and failing with
ExhaustedNamespace after 1000. On the code, `allocate` cannot run at all:
its module has a syntax error (`return new TemporaryFile(...)`) and the
loop's first expression references the unbound name `_fname`, raising an
uncaught `NameError` on every call, so no name is ever produced and the
exhaustion path is unreachable. Moreover the format string `"%s-%03d%s"`
the claim describes yields `<timestamp>-<NNN><suffix>`, with no separator
before the suffix. -/
theorem c8_allocate_unrunnable :
    TemporaryFolder.allocate "20251012000000" ".txt"
      = Except.error PyErr.nameError ∧
    tmpName "20251012000000" 0 ".txt" = "20251012000000-000.txt" ∧
    tmpName "20251012000000" 999 ".txt" = "20251012000000-999.txt" ∧
    tmpName "20251012000000" 0 ".txt" ≠ "20251012000000-000-.txt" := by
  exact ⟨rfl, rfl, rfl, by decide⟩

/-! ## Claim C9 — spawn -/

/-- An already-valid source folder at `/f`. -/
def fsValid : DFS :=
  ⟨[("/f", Entry.dir), ("/f/rbay", Entry.dir), ("/f/.tmp", Entry.dir),
    ("/f/manifest.json", Entry.file docA)]⟩

/-- **C9.** Claim: `spawn(path)` idempotently creates the three members and
returns a Source Folder, leaving an already-valid folder's contents as
they are. On the code, `spawn` reopens the manifest with `open(path)` —
default mode "r" — and calls `.write("[]")` on that handle, which raises
`io.UnsupportedOperation`: on an already-valid folder spawn fails instead
of returning (and the statement it was attempting is an unconditional
overwrite with `[]`, not a content-preserving no-op). On a bare directory
the manifest member is never created either: `_ensure_file_exists` cannot
create a file with a read-mode `open`, and its
`os.makedirs(join(path, ".."))` fails with `EEXIST` after creating a
directory where the manifest file belongs. -/
theorem c9_spawn_cannot_write_manifest :
    SourceFolder.check fsValid "/f" = true ∧
    SourceFolder.spawn fsValid "/f" = Except.error PyErr.unsupportedOp ∧
    SourceFolder.spawn ⟨[("/f", Entry.dir)]⟩ "/f"
      = Except.error PyErr.osError := by
  exact ⟨rfl, rfl, rfl⟩

/-! ## Claim C10 — Source Folder id resolution -/

/-- A valid source folder whose receiving bay holds `5-notes.pdf`. -/
def fsBay : DFS :=
  ⟨[("/f", Entry.dir), ("/f/rbay", Entry.dir), ("/f/.tmp", Entry.dir),
    ("/f/manifest.json", Entry.file "[]"),
    ("/f/rbay/5-notes.pdf", Entry.file "")]⟩

/-- **C10.** Claim: `get(id)` returns the name of a receiving-bay file whose
name starts with `str(id)`, and fails with NotFound when `str(id)` is
empty or nothing matches. The empty-string half holds (`KeyError` is
raised before anything else runs), but resolution never happens: `get`
iterates `self.available()`, whose body `os.listdir(_fname)` references an
unbound name and raises `NameError`, so `get(5)` fails instead of
returning `5-notes.pdf`. Even under the intended reading `self._fname`,
`SourceFolder.available` lists the folder *root* — `rbay`, `.tmp`,
`manifest.json` — not the receiving bay, so the prefix loop would still
find no match, although the receiving bay's own listing contains one. -/
theorem c10_get_cannot_resolve :
    SourceFolder.get "" = Except.error PyErr.keyError ∧
    SourceFolder.get "5" = Except.error PyErr.nameError ∧
    fsBay.listdir "/f" = ["rbay", ".tmp", "manifest.json"] ∧
    findByKey (fsBay.listdir "/f") "5" = Except.error PyErr.keyError ∧
    findByKey (fsBay.listdir "/f/rbay") "5" = Except.ok "5-notes.pdf" := by
  exact ⟨rfl, rfl, rfl, rfl, rfl⟩

end SourceWrangler
